import Mathlib

/-!
Verification of the Sri Lanka flood-report extraction engine.

This file gives a shallow embedding, in Lean 4, of the parsing and
normalization code of the repository (`src/pdf_extractor.py`,
`src/flood_extractor.py`, `hf_space/src/landslide_extractor.py`) and proves
properties of the embedded definitions.  Python strings are modelled as
`String` / `List Char`; pandas cells are `Option String` (`none` models
`NaN`/`None`); Python `float` values are modelled by `PyFloat` (an exact
rational, an infinity, or a NaN marker); fallible extraction is `Except`.
All definitions are computable so that theorems can be checked on concrete
inputs by evaluation.
-/

/-- Strip leading and trailing whitespace from a character list
(models Python `str.strip()` / the stripping done by `int()`/`float()`). -/
def trimL (cs : List Char) : List Char :=
  ((cs.dropWhile Char.isWhitespace).reverse.dropWhile Char.isWhitespace).reverse

/-- Models Python `str.strip()` on a string (kernel-reducible, unlike
`String.trim`). -/
def pyStrip (s : String) : String :=
  (trimL s.toList).asString

/-- Lower-case every character (models Python `str.lower()` on ASCII data). -/
def lowerL (cs : List Char) : List Char :=
  cs.map Char.toLower

/-- Lower-case a string. -/
def lowerS (s : String) : String :=
  (lowerL s.toList).asString

/-- Substring test: models Python's `needle in hay`. -/
def strContains (hay needle : String) : Bool :=
  hay.toList.tails.any (fun t => needle.toList.isPrefixOf t)

/-- One replacement pass: replace every non-overlapping occurrence of
`pat` (non-empty) by `rep`, scanning left to right; `fuel` bounds the scan
(`fuel = cs.length` always suffices since every step consumes a character).
Models Python `str.replace`. -/
def replaceLAux (pat rep : List Char) : Nat → List Char → List Char
  | 0, cs => cs
  | _ + 1, [] => []
  | fuel + 1, c :: rest =>
    if pat ≠ [] ∧ pat.isPrefixOf (c :: rest) then
      rep ++ replaceLAux pat rep fuel ((c :: rest).drop pat.length)
    else
      c :: replaceLAux pat rep fuel rest

/-- Models Python `s.replace(pat, rep)` (all occurrences, left to right). -/
def pyReplace (s pat rep : String) : String :=
  (replaceLAux pat.toList rep.toList s.toList.length s.toList).asString

/-- Split a character list on a separator character; models Python
`str.split(sep)` for a one-character separator (empty pieces are kept). -/
def splitCharL (sep : Char) : List Char → List (List Char)
  | [] => [[]]
  | c :: rest =>
    match splitCharL sep rest with
    | [] => [[]]
    | h :: t => if c = sep then [] :: h :: t else (c :: h) :: t

/-- `True` when the string is non-empty and all characters are decimal
digits; models Python `str.isdigit()` on ASCII data. -/
def pyIsDigit (s : String) : Bool :=
  s.toList ≠ [] && s.toList.all Char.isDigit

/-- Numeric value of a digit list (most significant first). -/
def digitsToNat (cs : List Char) : Nat :=
  cs.foldl (fun a c => a * 10 + (c.toNat - 48)) 0

/-- Parse a Python `digitpart`: `digit (["_"] digit)*` — digits with single
underscores allowed between digits.  Returns the value, the number of
digits, and the remaining characters; `none` when the input does not start
with a digit. -/
def digitRun (cs : List Char) : Option (Nat × Nat × List Char) :=
  match cs with
  | c :: rest =>
    if c.isDigit then some (go (c.toNat - 48) 1 rest) else none
  | [] => none
where
  go (acc cnt : Nat) : List Char → Nat × Nat × List Char
    | c :: rest =>
      if c.isDigit then go (acc * 10 + (c.toNat - 48)) (cnt + 1) rest
      else if c = '_' then
        match rest with
        | d :: rest2 =>
          if d.isDigit then go (acc * 10 + (d.toNat - 48)) (cnt + 1) rest2
          else (acc, cnt, c :: d :: rest2)
        | [] => (acc, cnt, [c])
      else (acc, cnt, c :: rest)
    | [] => (acc, cnt, [])

/-- Parse an optional sign; returns (negative?, rest). -/
def signSplit : List Char → Bool × List Char
  | '-' :: rest => (true, rest)
  | '+' :: rest => (false, rest)
  | cs => (false, cs)

/-- Models Python `int(s)` on a decimal string: optional surrounding
whitespace, optional sign, then a `digitpart`; `none` models `ValueError`. -/
def pyInt (s : String) : Option Int :=
  let cs := trimL s.toList
  let (neg, cs) := signSplit cs
  match digitRun cs with
  | some (v, _, []) => some (if neg then -(v : Int) else (v : Int))
  | _ => none

/-- The value domain of Python `float`: `finite mant scale` denotes the
exact decimal `mant / 10 ^ scale` (the representation is not normalized and
the embedding does not model rounding to binary64 — no claim compares two
different decimal spellings of one number), a signed infinity, or NaN. -/
inductive PyFloat where
  | finite (mant : Int) (scale : Nat)
  | inf (neg : Bool)
  | nan
deriving DecidableEq

/-- Parse the mantissa of a float literal: `digits`, `digits.`,
`digits.digits` or `.digits` (underscores allowed inside each digit part).
Returns the mantissa digits' value, the number of fractional digits, and
the remaining characters. -/
def floatMantissa (cs : List Char) : Option (Nat × Nat × List Char) :=
  match digitRun cs with
  | some (ip, _, rest) =>
    match rest with
    | '.' :: rest2 =>
      match digitRun rest2 with
      | some (fp, fl, rest3) => some (ip * 10 ^ fl + fp, fl, rest3)
      | none => some (ip, 0, rest2)
    | _ => some (ip, 0, rest)
  | none =>
    match cs with
    | '.' :: rest2 =>
      match digitRun rest2 with
      | some (fp, fl, rest3) => some (fp, fl, rest3)
      | none => none
    | _ => none

/-- Parse an optional exponent part `[eE] sign? digits`.  Returns the
signed exponent and the rest; fails if an `e` is present but malformed. -/
def floatExponent (cs : List Char) : Option (Int × List Char) :=
  match cs with
  | 'e' :: rest | 'E' :: rest =>
    let (neg, rest2) := signSplit rest
    match digitRun rest2 with
    | some (v, _, rest3) => some (if neg then -(v : Int) else (v : Int), rest3)
    | none => none
  | rest => some (0, rest)

/-- Models Python `float(s)`: optional whitespace and sign, then an
infinity/NaN keyword or a decimal mantissa with optional exponent; `none`
models `ValueError`. -/
def pyFloat (s : String) : Option PyFloat :=
  let cs := trimL s.toList
  let (neg, cs) := signSplit cs
  let low := lowerL cs
  if low = "inf".toList ∨ low = "infinity".toList then some (.inf neg)
  else if low = "nan".toList then some .nan
  else
    match floatMantissa cs with
    | some (m, sc, rest) =>
      match floatExponent rest with
      | some (e, []) =>
        let mant : Int := if neg then -(m : Int) else (m : Int)
        if 0 ≤ e then some (.finite (mant * (10 : Int) ^ e.toNat) sc)
        else some (.finite mant (sc + e.natAbs))
      | _ => none
    | none => none

namespace PdfExtractor

/-- Models `clean_numeric_value` from `src/pdf_extractor.py`: `None`, `NaN`
(both `none` here), `"-"` and `""` give `0`; otherwise commas are removed,
the string is stripped and converted with `int()`, any failure giving `0`. -/
def clean_numeric_value (value : Option String) : Int :=
  match value with
  | none => 0
  | some s =>
    if s = "-" ∨ s = "" then 0
    else
      match pyInt (pyStrip (pyReplace s "," "")) with
      | some n => n
      | none => 0

/-- Models `normalize_district_name` from `src/pdf_extractor.py`:
`None`/`NaN` become `""`; otherwise strip and map the alternative spelling
`"Rathnapura"` to `"Ratnapura"`. -/
def normalize_district_name (name : Option String) : String :=
  match name with
  | none => ""
  | some s =>
    let s := pyStrip s
    if s = "Rathnapura" then "Ratnapura" else s

end PdfExtractor

namespace FloodExtractor

/-- Models the nested `parse_float` of `parse_water_level_table` in
`src/flood_extractor.py`: empty, `"NA"` and `"-"` give `None`; otherwise
`float(s)`, with `ValueError` mapped to `None`. -/
def parse_float (s : String) : Option PyFloat :=
  if s = "" ∨ s = "NA" ∨ s = "-" then none
  else pyFloat s

end FloodExtractor

/-- A raw table-cell matrix as produced by the PDF-decoding collaborator
(`page.find_tables()[...].to_pandas()`): column labels plus one cell list
per data row (rows in `df.iterrows()` order, indexed from 0); a `none`
cell models `NaN`/`None`. -/
structure Table where
  cols : List String
  rows : List (List (Option String))
deriving DecidableEq

/-- Models pandas `row.get(label)` for a row of a `Table`: looks the label
up in the column list (first occurrence) and returns that cell; `none`
(outer) models a missing label, i.e. the `Series.get` default. -/
def seriesGet (cols : List String) (row : List (Option String)) (label : String) : Option (Option String) :=
  match cols.indexOf? label with
  | none => none
  | some k => row.get? k

/-- Gregorian leap year, as used by Python `datetime`. -/
def isLeap (y : Nat) : Bool :=
  y % 4 == 0 && (y % 100 != 0 || y % 400 == 0)

/-- Days in a month, as used by Python `datetime`. -/
def daysInMonth (y m : Nat) : Nat :=
  if m = 2 then (if isLeap y then 29 else 28)
  else if m = 4 ∨ m = 6 ∨ m = 9 ∨ m = 11 then 30 else 31

/-- Whether `datetime(y, m, d)` is constructible (`MINYEAR = 1`,
`MAXYEAR = 9999`); `strptime` raises `ValueError` otherwise. -/
def validDate (y m d : Nat) : Bool :=
  1 ≤ y && y ≤ 9999 && 1 ≤ m && m ≤ 12 && 1 ≤ d && d ≤ daysInMonth y m

/-- Whether `strptime` accepts date `y.m.d` and time `hh:mi`. -/
def validDateTime (y m d hh mi : Nat) : Bool :=
  validDate y m d && hh ≤ 23 && mi ≤ 59

/-- Match a literal character sequence, returning the rest. -/
def matchLit : List Char → List Char → Option (List Char)
  | [], cs => some cs
  | _ :: _, [] => none
  | p :: ps, c :: cs => if p = c then matchLit ps cs else none

/-- Match one expected character. -/
def expectChar (x : Char) : List Char → Option (List Char)
  | c :: cs => if c = x then some cs else none
  | [] => none

/-- Match exactly `n` decimal digits (regex `\d{n}`), returning them and
the rest. -/
def takeDigitsN : Nat → List Char → Option (List Char × List Char)
  | 0, cs => some ([], cs)
  | n + 1, c :: cs =>
    if c.isDigit then (takeDigitsN n cs).map (fun p => (c :: p.1, p.2)) else none
  | _ + 1, [] => none

/-- Models `re.search` for a fixed pattern matcher `f`: try the pattern at
every start position, leftmost first. -/
def reSearch {α : Type} (f : List Char → Option α) : List Char → Option α
  | [] => f []
  | c :: rest =>
    match f (c :: rest) with
    | some r => some r
    | none => reSearch f rest

namespace PdfExtractor

/-- One parsed situation-report district row (`district_data` in
`parse_sitrep_table`).  Coordinates are exact scaled integers: `lat`/`lon`
hold the value in units of 10⁻⁴ degrees, matching the four-decimal
literals of `DISTRICT_COORDS`. -/
structure DistrictRecord where
  district : String
  lat : Int
  lon : Int
  families_affected : Int
  people_affected : Int
  deaths : Int
  missing : Int
  houses_fully_damaged : Int
  houses_partially_damaged : Int
  safety_centers : Int
  families_displaced : Int
  people_displaced : Int
deriving DecidableEq

/-- The district-centroid catalog of `src/pdf_extractor.py`
(`DISTRICT_COORDS`), with coordinates in units of 10⁻⁴ degrees. -/
def DISTRICT_COORDS : List (String × Int × Int) :=
  [("Ampara", 72917, 816720), ("Anuradhapura", 83350, 804108),
   ("Badulla", 69934, 810550), ("Batticaloa", 77310, 816747),
   ("Colombo", 69271, 798612), ("Galle", 60535, 802210),
   ("Gampaha", 70873, 800144), ("Hambantota", 61429, 811212),
   ("Jaffna", 96615, 800255), ("Kalutara", 65854, 799607),
   ("Kandy", 72906, 806337), ("Kegalle", 72513, 803464),
   ("Kilinochchi", 93803, 803770), ("Kurunegala", 74863, 803647),
   ("Mannar", 89810, 799044), ("Matale", 74675, 806234),
   ("Matara", 59549, 805550), ("Monaragala", 68728, 813507),
   ("Mullaitivu", 92671, 808142), ("Nuwara Eliya", 69497, 807891),
   ("Polonnaruwa", 79403, 810188), ("Puttalam", 80362, 798283),
   ("Ratnapura", 66828, 803992), ("Rathnapura", 66828, 803992),
   ("Trincomalee", 85874, 812152), ("Vavuniya", 87514, 804971)]

/-- Models `DISTRICT_COORDS.get(name, {"lat": 7.8731, "lon": 80.7718})`:
coordinates for a district, defaulting to the Sri Lanka center. -/
def districtCoords (name : String) : Int × Int :=
  match DISTRICT_COORDS.find? (fun p => p.1 == name) with
  | some p => p.2
  | none => (78731, 807718)

/-- Models `cols[k] if len(cols) > k else None` from the `col_map`
construction of `parse_sitrep_table`. -/
def colAt (cols : List String) (k : Nat) : Option String :=
  cols.get? k

/-- Models `row.get(col_map.get("district", ""))`: `None` when the column
map entry is `None`, otherwise the cell under that label. -/
def sitrep_district_cell (t : Table) (row : List (Option String)) : Option String :=
  match colAt t.cols 1 with
  | none => none
  | some label =>
    match seriesGet t.cols row label with
    | none => none
    | some c => c

/-- Models `clean_numeric_value(row.get(col_map.get(field, ""), 0))` for
the numeric column at position `k`: a missing column or missing label
yields the default `0` (and `clean_numeric_value(0) = 0`). -/
def sitrep_num (t : Table) (row : List (Option String)) (k : Nat) : Int :=
  match colAt t.cols k with
  | none => 0
  | some label =>
    match seriesGet t.cols row label with
    | none => 0
    | some cell => clean_numeric_value cell

/-- The sentinel list of `parse_sitrep_table`'s row filter. -/
def sitrepSkipList : List String :=
  ["none", "total", "districts", ""]

/-- The normalized district name of a row
(`normalize_district_name(row.get(...))`). -/
def sitrepRowName (t : Table) (row : List (Option String)) : String :=
  normalize_district_name (sitrep_district_cell t row)

/-- Whether a (non-header) row is kept: the negation of
`if not district_name or district_name.lower() in ["none", "total",
"districts", ""]: continue`. -/
def sitrepRowKeep (t : Table) (row : List (Option String)) : Bool :=
  let d := sitrepRowName t row
  !(d == "" || sitrepSkipList.contains (lowerS d))

/-- The `district_data` dict built for a kept row of the situation-report
table. -/
def mkDistrictRecord (t : Table) (dname : String) (row : List (Option String)) : DistrictRecord :=
  let c := districtCoords dname
  { district := dname
    lat := c.1
    lon := c.2
    families_affected := sitrep_num t row 2
    people_affected := sitrep_num t row 3
    deaths := sitrep_num t row 4
    missing := sitrep_num t row 5
    houses_fully_damaged := sitrep_num t row 6
    houses_partially_damaged := sitrep_num t row 7
    safety_centers := sitrep_num t row 8
    families_displaced := sitrep_num t row 9
    people_displaced := sitrep_num t row 10 }

/-- The row loop of `parse_sitrep_table` (`for idx, row in df.iterrows()`):
skip the first two rows, skip rows whose normalized district name is empty
or a sentinel, append a record otherwise. -/
def parse_sitrep_table_aux (t : Table) : List (Nat × List (Option String)) → List DistrictRecord
  | [] => []
  | (idx, row) :: rest =>
    if idx < 2 then parse_sitrep_table_aux t rest
    else if sitrepRowKeep t row then
      mkDistrictRecord t (sitrepRowName t row) row :: parse_sitrep_table_aux t rest
    else parse_sitrep_table_aux t rest

/-- Models `parse_sitrep_table` from `src/pdf_extractor.py` (lines
132–189). -/
def parse_sitrep_table (t : Table) : List DistrictRecord :=
  parse_sitrep_table_aux t t.rows.enum

/-- Models the totals dict of `calculate_totals` in `src/pdf_extractor.py`. -/
structure SitrepTotals where
  total_families_affected : Int
  total_people_affected : Int
  total_deaths : Int
  total_missing : Int
  total_houses_fully_damaged : Int
  total_houses_partially_damaged : Int
  total_safety_centers : Int
  total_families_displaced : Int
  total_people_displaced : Int
  districts_affected : Nat
deriving DecidableEq

/-- Models `calculate_totals` from `src/pdf_extractor.py`. -/
def calculate_totals (districts : List DistrictRecord) : SitrepTotals :=
  { total_families_affected := (districts.map (·.families_affected)).sum
    total_people_affected := (districts.map (·.people_affected)).sum
    total_deaths := (districts.map (·.deaths)).sum
    total_missing := (districts.map (·.missing)).sum
    total_houses_fully_damaged := (districts.map (·.houses_fully_damaged)).sum
    total_houses_partially_damaged := (districts.map (·.houses_partially_damaged)).sum
    total_safety_centers := (districts.map (·.safety_centers)).sum
    total_families_displaced := (districts.map (·.families_displaced)).sum
    total_people_displaced := (districts.map (·.people_displaced)).sum
    districts_affected := districts.length }

/-- Match the date pattern of `extract_metadata_from_text`
(`"Situation Report on (\d{4}\.\d{2}\.\d{2}) at (\d{4}) hrs"`) at one
position, returning the numeric date, the numeric time split as
`%H%M`, and the two raw captured substrings. -/
def sitrepDateAt (cs : List Char) : Option ((Nat × Nat × Nat) × (Nat × Nat) × String × String) := do
  let r ← matchLit "Situation Report on ".toList cs
  let (ycs, r) ← takeDigitsN 4 r
  let r ← expectChar '.' r
  let (mcs, r) ← takeDigitsN 2 r
  let r ← expectChar '.' r
  let (dcs, r) ← takeDigitsN 2 r
  let r ← matchLit " at ".toList r
  let (tcs, r) ← takeDigitsN 4 r
  let _ ← matchLit " hrs".toList r
  pure ((digitsToNat ycs, digitsToNat mcs, digitsToNat dcs),
        (digitsToNat (tcs.take 2), digitsToNat (tcs.drop 2)),
        (ycs ++ '.' :: mcs ++ '.' :: dcs).asString, tcs.asString)

/-- The date fields of the metadata dict of `extract_metadata_from_text`
in `src/pdf_extractor.py`: `report_date` is populated on a successful
`strptime`, `report_date_raw` on a parse failure or when no pattern
matches.  The constant fields (`source`, `extracted_at`) and the signatory
block are omitted here: they populate unrelated keys and never raise;
`report_date_formatted` is populated exactly when `report_date` is. -/
structure SitrepMetadata where
  report_date : Option (Nat × Nat × Nat × Nat × Nat)
  report_date_raw : Option String
deriving DecidableEq

/-- Models `extract_metadata_from_text` from `src/pdf_extractor.py`
(lines 48–78), restricted to its date fields. -/
def extract_metadata_from_text (text : String) : SitrepMetadata :=
  match reSearch sitrepDateAt text.toList with
  | some ((y, m, d), (hh, mi), rawDate, rawTime) =>
    if validDateTime y m d hh mi then
      { report_date := some (y, m, d, hh, mi), report_date_raw := none }
    else
      { report_date := none, report_date_raw := some (rawDate ++ " " ++ rawTime) }
  | none => { report_date := none, report_date_raw := some "Unknown" }

/-- The result dict of `extract_sitrep_data`. -/
structure SitrepData where
  metadata : SitrepMetadata
  districts : List DistrictRecord
  totals : SitrepTotals
deriving DecidableEq

/-- Models `extract_sitrep_data` from `src/pdf_extractor.py` (lines
208–237).  The PDF-decoding collaborator is modelled by the two inputs:
the decoded full text and the optional first table
(`extract_table_from_pdf` returns `None` when no page has a table); the
`raise ValueError("Could not extract table from PDF")` is the `Except`
error. -/
def extract_sitrep_data (text : String) (table? : Option Table) : Except String SitrepData :=
  match table? with
  | none => .error "Could not extract table from PDF"
  | some df =>
    let districts := parse_sitrep_table df
    .ok { metadata := extract_metadata_from_text text
          districts := districts
          totals := calculate_totals districts }

/-- One output feature of the situation-report `convert_to_geojson`:
point geometry `[lon, lat]` plus the district properties. -/
structure SitrepFeature where
  lon : Int
  lat : Int
  district : String
  families_affected : Int
  people_affected : Int
  deaths : Int
  missing : Int
  houses_fully_damaged : Int
  houses_partially_damaged : Int
  safety_centers : Int
  families_displaced : Int
  people_displaced : Int
deriving DecidableEq

/-- The feature built from one district record in the situation-report
`convert_to_geojson`. -/
def featureOf (d : DistrictRecord) : SitrepFeature :=
  { lon := d.lon
    lat := d.lat
    district := d.district
    families_affected := d.families_affected
    people_affected := d.people_affected
    deaths := d.deaths
    missing := d.missing
    houses_fully_damaged := d.houses_fully_damaged
    houses_partially_damaged := d.houses_partially_damaged
    safety_centers := d.safety_centers
    families_displaced := d.families_displaced
    people_displaced := d.people_displaced }

/-- The output of the situation-report `convert_to_geojson`. -/
structure SitrepGeo where
  metadata : SitrepMetadata
  totals : SitrepTotals
  features : List SitrepFeature
deriving DecidableEq

/-- Models `convert_to_geojson` from `src/pdf_extractor.py` (lines
270–301): one point feature per extracted district record. -/
def convert_to_geojson (data : SitrepData) : SitrepGeo :=
  { metadata := data.metadata
    totals := data.totals
    features := data.districts.map featureOf }

end PdfExtractor

namespace FloodExtractor

/-- The metadata dict of `extract_metadata` in `src/flood_extractor.py`,
restricted to its optional fields.  The constant fields (`source`,
`report_type`, `extracted_at`, `pdf_url`) are omitted; note that this
extractor has no `report_date_raw` field and no `"Unknown"` fallback —
a failed `strptime` populates `report_date_str`, and a text without the
`DATE` pattern populates no date field at all. -/
structure FloodMetadata where
  report_date : Option (Nat × Nat × Nat)
  report_date_str : Option String
  report_time : Option String
  report_title : Option String
deriving DecidableEq

/-- Match `\d{1,2}-` greedily (two digits if the third character is the
dash, else one digit and the dash), returning the day digits and the rest
after the dash. -/
def dayDigits : List Char → Option (List Char × List Char)
  | c1 :: c2 :: rest =>
    if c1.isDigit then
      if c2.isDigit then
        match rest with
        | '-' :: rest2 => some ([c1, c2], rest2)
        | _ => none
      else if c2 = '-' then some ([c1], rest)
      else none
    else none
  | _ => none

/-- Match `[A-Za-z]{3}`. -/
def takeAlphaN : Nat → List Char → Option (List Char × List Char)
  | 0, cs => some ([], cs)
  | n + 1, c :: cs =>
    if c.isAlpha then (takeAlphaN n cs).map (fun p => (c :: p.1, p.2)) else none
  | _ + 1, [] => none

/-- Match the pattern `DATE\s*:\s*(\d{1,2}-[A-Za-z]{3}-\d{4})` at one
position; returns day, month token, year, and the raw captured group. -/
def floodDateAt (cs : List Char) : Option (Nat × String × Nat × String) := do
  let r ← matchLit "DATE".toList cs
  let r ← expectChar ':' (r.dropWhile Char.isWhitespace)
  let r := r.dropWhile Char.isWhitespace
  let (dcs, r) ← dayDigits r
  let (mcs, r) ← takeAlphaN 3 r
  let r ← expectChar '-' r
  let (ycs, _) ← takeDigitsN 4 r
  pure (digitsToNat dcs, mcs.asString, digitsToNat ycs,
        (dcs ++ '-' :: mcs ++ '-' :: ycs).asString)

/-- Month number for a `%b` abbreviation (`strptime` matches month
abbreviations case-insensitively). -/
def monthFromAbbrev (s : String) : Option Nat :=
  match lowerS s with
  | "jan" => some 1
  | "feb" => some 2
  | "mar" => some 3
  | "apr" => some 4
  | "may" => some 5
  | "jun" => some 6
  | "jul" => some 7
  | "aug" => some 8
  | "sep" => some 9
  | "oct" => some 10
  | "nov" => some 11
  | "dec" => some 12
  | _ => none

/-- Match the pattern `TIME\s*:\s*([\d:]+\s*(?:AM|PM|am|pm)?)` at one
position, returning the stripped captured group. -/
def floodTimeAt (cs : List Char) : Option String :=
  (matchLit "TIME".toList cs).bind fun r =>
  (expectChar ':' (r.dropWhile Char.isWhitespace)).bind fun r =>
  let r := r.dropWhile Char.isWhitespace
  let run := r.takeWhile fun c => c.isDigit || c = ':'
  if run = [] then none
  else
    let r2 := r.drop run.length
    let wsRun := r2.takeWhile Char.isWhitespace
    let r3 := r2.drop wsRun.length
    if "AM".toList.isPrefixOf r3 then some ((run ++ wsRun ++ "AM".toList).asString)
    else if "PM".toList.isPrefixOf r3 then some ((run ++ wsRun ++ "PM".toList).asString)
    else if "am".toList.isPrefixOf r3 then some ((run ++ wsRun ++ "am".toList).asString)
    else if "pm".toList.isPrefixOf r3 then some ((run ++ wsRun ++ "pm".toList).asString)
    else some run.asString

/-- Match the pattern `(Islandwide Water Level[^\n]+)` at one position,
returning the stripped captured group. -/
def floodTitleAt (cs : List Char) : Option String := do
  let r ← matchLit "Islandwide Water Level".toList cs
  let tail := r.takeWhile (· ≠ '\n')
  if tail = [] then none
  else pure (trimL ("Islandwide Water Level".toList ++ tail)).asString

/-- Models `extract_metadata` from `src/flood_extractor.py` (lines 34–73),
restricted to its optional fields. -/
def extract_metadata (text : String) : FloodMetadata :=
  let dateFields :=
    match reSearch floodDateAt text.toList with
    | some (d, mon, y, raw) =>
      match monthFromAbbrev mon with
      | some m => if validDate y m d then (some (y, m, d), none) else (none, some raw)
      | none => (none, some raw)
    | none => (none, none)
  { report_date := dateFields.1
    report_date_str := dateFields.2
    report_time := reSearch floodTimeAt text.toList
    report_title := reSearch floodTitleAt text.toList }

/-- The closed tributary-name vocabulary of `parse_water_level_table`. -/
def tributary_names : List String :=
  ["Kelani Ganga", "Gurugoda Oya", "Seethawaka Ganga", "Kehelgamu Oya",
   "Kalu Ganga", "Maguru Ganga", "Kuda Ganga", "Gin Ganga",
   "Nilwala Ganga", "Urubokka Ganga", "Walawe Ganga", "Kirindi Oya",
   "Kuda Oya", "Menik Ganga", "Kumbukkan Oya", "Heda Oya",
   "Maduru Oya", "Mahaweli Ganga", "Badulu Oya", "Yan Oya",
   "Mukunu Oya", "Malwathu Oya", "Mee Oya", "Deduru Oya",
   "Maha Oya", "Attanagalu Oya"]

/-- Models the footer test
`'Prepared by' in line or 'Director' in line or '`' in line`. -/
def isFooterLine (line : String) : Bool :=
  strContains line "Prepared by" || strContains line "Director" || strContains line "`"

/-- Match `\(RB\s+\d+\)` at the head of a character list, returning the
number of characters consumed. -/
def rbTailLen (cs : List Char) : Option Nat :=
  match cs with
  | '(' :: 'R' :: 'B' :: rest =>
    let wsRun := rest.takeWhile Char.isWhitespace
    if wsRun = [] then none
    else
      let rest2 := rest.drop wsRun.length
      let dRun := rest2.takeWhile Char.isDigit
      if dRun = [] then none
      else
        match rest2.drop dRun.length with
        | ')' :: _ => some (3 + wsRun.length + dRun.length + 1)
        | _ => none
  | _ => none

/-- Models `re.search(r'(.+\s+\(RB\s+\d+\))', line)` followed by
`.group(1).strip()`: the greedy match starts at position 0 and ends at the
last completing `(RB <digits>)` that is preceded by whitespace and by at
least one further (non-newline) character. -/
def basinCapture (s : String) : Option String :=
  let cs := s.toList
  let qs := (List.range cs.length).filterMap fun q =>
    if 2 ≤ q ∧ ((cs.get? (q - 1)).map Char.isWhitespace = some true)
        ∧ (cs.take (q - 1)).all (· ≠ '\n') then
      (rbTailLen (cs.drop q)).map (fun tl => q + tl)
    else none
  match qs.getLast? with
  | some e => some ((trimL (cs.take e)).asString)
  | none => none

/-- One gauging-station record (`station_data` in
`parse_water_level_table`). -/
structure StationReading where
  river_basin : String
  tributary : String
  station : String
  unit : String
  alert_level : Option PyFloat
  minor_flood_level : Option PyFloat
  major_flood_level : Option PyFloat
  water_level_reading_1 : Option PyFloat
  water_level_reading_2 : Option PyFloat
  remarks : Option String
  water_level_trend : Option String
  rainfall_6hr_mm : Option PyFloat
deriving DecidableEq

/-- The closed remarks vocabulary. -/
def remarksVocab : List String :=
  ["Normal", "Alert", "Minor", "Major"]

/-- The first optional-field step of `parse_water_level_table`: at cursor
`p`, sniff a remarks token, else (when not `"-"`) try a rainfall value,
else skip the `"-"`.  Returns (remarks, rainfall so far, new cursor). -/
def optionalField1 (lines : List String) (p : Nat) : Option String × Option PyFloat × Nat :=
  match lines.get? p with
  | none => (none, none, p)
  | some v =>
    if remarksVocab.contains v then (some v, none, p + 1)
    else if v ≠ "-" then
      match parse_float v with
      | some r => (none, some r, p + 1)
      | none => (none, none, p)
    else (none, none, p + 1)

/-- The second optional-field step: at cursor `j`, sniff a trend token,
else (when not `"-"` and no rainfall was read yet) try a rainfall value,
else skip the `"-"`.  Returns (trend, rainfall, new cursor). -/
def optionalField2 (lines : List String) (j : Nat) (rain1 : Option PyFloat) :
    Option String × Option PyFloat × Nat :=
  match lines.get? j with
  | none => (none, rain1, j)
  | some w =>
    if w = "Rising" ∨ w = "Falling" then (some w, rain1, j + 1)
    else if w ≠ "-" then
      match rain1 with
      | none =>
        match parse_float w with
        | some r => (none, some r, j + 1)
        | none => (none, none, j)
      | some _ => (none, rain1, j)
    else (none, rain1, j + 1)

/-- The scanning loop (`while i < len(lines)`) of
`parse_water_level_table` in `src/flood_extractor.py` (lines 124–238),
with the implicit cursor made explicit.  `fuel` bounds the number of loop
iterations; `none` models fuel exhaustion (the termination theorem shows
`fuel = lines.length + 1` can never exhaust, since the cursor strictly
increases in every iteration). -/
def parseLoop (lines : List String) : Nat → Nat → String → List StationReading → Option (List StationReading)
  | 0, _, _, _ => none
  | fuel + 1, i, basin, acc =>
    match lines.get? i with
    | none => some acc
    | some line =>
      if isFooterLine line then some acc
      else
        match basinCapture line with
        | some b => parseLoop lines fuel (i + 1) b acc
        | none =>
          if tributary_names.contains line then
            match lines.get? (i + 1) with
            | none => some acc
            | some station =>
              match lines.get? (i + 2) with
              | none => some acc
              | some unitTok =>
                if unitTok = "m" ∨ unitTok = "ft" then
                  if lines.length ≤ i + 7 then some acc
                  else
                    let o1 := optionalField1 lines (i + 8)
                    let o2 := optionalField2 lines o1.2.2 o1.2.1
                    let entry : StationReading :=
                      { river_basin := basin
                        tributary := line
                        station := station
                        unit := unitTok
                        alert_level := parse_float (lines.getD (i + 3) "")
                        minor_flood_level := parse_float (lines.getD (i + 4) "")
                        major_flood_level := parse_float (lines.getD (i + 5) "")
                        water_level_reading_1 := parse_float (lines.getD (i + 6) "")
                        water_level_reading_2 := parse_float (lines.getD (i + 7) "")
                        remarks := o1.1
                        water_level_trend := o2.1
                        rainfall_6hr_mm := o2.2.1 }
                    parseLoop lines fuel o2.2.2 basin (acc ++ [entry])
                else parseLoop lines fuel (i + 2) basin acc
          else parseLoop lines fuel (i + 1) basin acc

/-- Models `[line.strip() for line in text.split('\n') if line.strip()]`. -/
def splitLines (text : String) : List String :=
  ((splitCharL '\n' text.toList).map (fun cs => (trimL cs).asString)).filter (· ≠ "")

/-- Models the data-start scan: the first index `i > 10` whose line is
exactly `"Kelani Ganga"`. -/
def findDataStart (lines : List String) : Option Nat :=
  (lines.enum.find? (fun p => p.2 == "Kelani Ganga" && decide (p.1 > 10))).map (·.1)

/-- Models `parse_water_level_table` from `src/flood_extractor.py`:
split into stripped non-blank lines, find the data start, then run the
scanning loop with the default basin context. -/
def parse_water_level_table (text : String) : List StationReading :=
  let lines := splitLines text
  match findDataStart lines with
  | none => []
  | some s => (parseLoop lines (lines.length + 1) s "Kelani Ganga (RB 01)" []).getD []

end FloodExtractor

namespace LandslideExtractor

/-- The artifact substrings stripped by `parse_divisions`, in source
order (stripping is sequential, so earlier entries can gut later ones). -/
def artifacts_to_remove : List String :=
  ["Divisional Secretariat", "Division(s) (DSD)", "DSD",
   "and surrounding areas", "surrounding areas", "(DSD)"]

/-- One pass of `re.sub(r'\s+', ' ', s)`: each maximal whitespace run
becomes a single space (the flag records whether the previous character
was whitespace). -/
def collapseGo : Bool → List Char → List Char
  | _, [] => []
  | prevWs, c :: rest =>
    if c.isWhitespace then
      if prevWs then collapseGo true rest else ' ' :: collapseGo true rest
    else c :: collapseGo false rest

/-- Models `re.sub(r'\s+', ' ', s)`. -/
def collapseWs (s : String) : String :=
  (collapseGo false s.toList).asString

/-- Try to match `\s+and\s+` (case-insensitive `and`) at the head of the
list; on success return the characters after the match (both whitespace
runs consumed greedily). -/
def tryAndMatch (cs : List Char) : Option (List Char) :=
  match cs with
  | c :: _ =>
    if c.isWhitespace then
      match cs.dropWhile Char.isWhitespace with
      | a :: n :: d :: rest2 =>
        if (a = 'a' ∨ a = 'A') ∧ (n = 'n' ∨ n = 'N') ∧ (d = 'd' ∨ d = 'D') then
          match rest2 with
          | w :: _ =>
            if w.isWhitespace then some (rest2.dropWhile Char.isWhitespace) else none
          | [] => none
        else none
      | _ => none
    else none
  | [] => none

/-- Left-to-right scan replacing every `\s+and\s+` by `", "`; `fuel`
bounds the scan (`fuel = cs.length` suffices, every step consumes at
least one character). -/
def andSubAux : Nat → List Char → List Char
  | 0, cs => cs
  | _ + 1, [] => []
  | fuel + 1, c :: rest =>
    match tryAndMatch (c :: rest) with
    | some rest2 => ',' :: ' ' :: andSubAux fuel rest2
    | none => c :: andSubAux fuel rest

/-- Models `re.sub(r'\s+and\s+', ', ', s, flags=re.IGNORECASE)`. -/
def andToComma (s : String) : String :=
  (andSubAux s.toList.length s.toList).asString

/-- The stop list of `parse_divisions`' token filter. -/
def divisionStopList : List String :=
  ["-", "none", "nan", "."]

/-- Models `parse_divisions` from `hf_space/src/landslide_extractor.py`
(lines 68–126): sentinel check, artifact stripping, whitespace collapse,
arrow/underscore removal, `and`-to-comma normalization, comma split, and
the per-token filters, in source order. -/
def parse_divisions (cell : Option String) : List String :=
  match cell with
  | none => []
  | some s0 =>
    let s := pyStrip s0
    if s = "-" ∨ s = "" ∨ s = "None" ∨ s = "nan" then []
    else
      let s := artifacts_to_remove.foldl (fun acc a => pyReplace acc a "") s
      let s := collapseWs s
      let s := pyReplace (pyReplace (pyReplace s "↓" "") "↑" "") "_" ""
      let s := andToComma s
      ((splitCharL ',' s.toList).map (fun part => pyStrip part.asString)).filterMap fun division =>
        if division = "" ∨ division.length < 3 then none
        else if divisionStopList.contains (lowerS division) then none
        else if pyIsDigit division then none
        else some division

/-- Models `normalize_district_name` from
`hf_space/src/landslide_extractor.py`: strip, then the alias table. -/
def normalize_district_name (name : String) : String :=
  let n := pyStrip name
  if n = "Rathnapura" then "Ratnapura"
  else if n = "NuwaraEliya" then "Nuwara Eliya"
  else if n = "Nuwaraeliya" then "Nuwara Eliya"
  else n

/-- One district warning record (`district_data` in
`parse_landslide_table`). -/
structure DivisionWarningRecord where
  district : String
  level_1_divisions : List String
  level_2_divisions : List String
  level_3_divisions : List String
  level_1_count : Nat
  level_2_count : Nat
  level_3_count : Nat
  total_warnings : Nat
  max_level : Nat
deriving DecidableEq

/-- The max-level derivation of `parse_landslide_table` (3 if level 3 is
non-empty, else 2, else 1, else 0), as a function of the three list
lengths. -/
def derivedMaxLevel (c1 c2 c3 : Nat) : Nat :=
  if 0 < c3 then 3 else if 0 < c2 then 2 else if 0 < c1 then 1 else 0

/-- The record built for one kept row: counts, total and max level are
computed from the division lists. -/
def mkWarning (district : String) (l1 l2 l3 : List String) : DivisionWarningRecord :=
  { district := district
    level_1_divisions := l1
    level_2_divisions := l2
    level_3_divisions := l3
    level_1_count := l1.length
    level_2_count := l2.length
    level_3_count := l3.length
    total_warnings := l1.length + l2.length + l3.length
    max_level := derivedMaxLevel l1.length l2.length l3.length }

/-- The header-keyword column scan of `parse_landslide_table`: for each
column label (in order) test the lowercased label for the district and
level keywords; later matches overwrite earlier ones. -/
def detectByHeader (cols : List String) : Option String × Option String × Option String × Option String :=
  cols.foldl
    (fun acc c =>
      let (dc, l1, l2, l3) := acc
      let cl := lowerS c
      if strContains cl "district" then (some c, l1, l2, l3)
      else if strContains cl "level 1" || strContains cl "yellow" then (dc, some c, l2, l3)
      else if strContains cl "level 2" || strContains cl "amber" then (dc, l1, some c, l3)
      else if strContains cl "level 3" || strContains cl "red" then (dc, l1, l2, some c)
      else acc)
    (none, none, none, none)

/-- Models `df[cols[0]].dropna().astype(str).tolist()[:5]`: the first five
non-null first-column cells. -/
def firstColValues (t : Table) : List String :=
  (t.rows.filterMap fun r =>
    match r.get? 0 with
    | some (some s) => some s
    | _ => none).take 5

/-- Models `all(v.isdigit() or v.lower() in ["no", "no."] for v in
first_col_values if v)` (vacuously true when the filtered list is
empty). -/
def hasNumbers (vals : List String) : Bool :=
  vals.all fun v =>
    if v = "" then true else (pyIsDigit v || lowerS v = "no" || lowerS v = "no.")

/-- The full column-structure detection: header keywords first, then the
positional fallback (row-number first column ⇒ columns 2–5, else columns
1–4); district column `none` means no usable layout. -/
def detectCols (t : Table) : Option String × Option String × Option String × Option String :=
  let (dc, l1, l2, l3) := detectByHeader t.cols
  match dc with
  | some c => (some c, l1, l2, l3)
  | none =>
    if hasNumbers (firstColValues t) ∧ t.cols.length ≥ 5 then
      (t.cols.get? 1, t.cols.get? 2, t.cols.get? 3, t.cols.get? 4)
    else if t.cols.length ≥ 4 then
      (t.cols.get? 0, t.cols.get? 1, t.cols.get? 2, t.cols.get? 3)
    else (none, l1, l2, l3)

/-- The row-skip sentinel list of `parse_landslide_table`. -/
def skip_values : List String :=
  ["", "none", "district", "districts", "total", "grand total",
   "no", "no.", "sl no", "sl.no", "0", "1", "2", "3", "4", "5",
   "level 1", "level 2", "level 3", "yellow", "amber", "red"]

/-- Models `str(row.get(label, ""))`: the cell under a label, with `NaN`
rendered as Python's `str(nan) = "nan"` and a missing label giving the
`""` default. -/
def cellAsPyStr (t : Table) (row : List (Option String)) (label : String) : String :=
  match seriesGet t.cols row label with
  | none => ""
  | some none => "nan"
  | some (some s) => s

/-- Models `parse_divisions(row.get(label, "")) if label else []` for one
level column. -/
def levelCell (t : Table) (row : List (Option String)) (label? : Option String) : List String :=
  match label? with
  | none => []
  | some label =>
    match seriesGet t.cols row label with
    | none => parse_divisions (some "")
    | some cell => parse_divisions cell

/-- The per-row step of `parse_landslide_table`: normalize the district
cell, apply the sentinel and numeric skips, and build the record. -/
def parse_landslide_row (t : Table) (dcLabel : String)
    (lc : Option String × Option String × Option String)
    (row : List (Option String)) : Option DivisionWarningRecord :=
  let district_name := normalize_district_name (pyStrip (cellAsPyStr t row dcLabel))
  if district_name = "" ∨ skip_values.contains (lowerS district_name) then none
  else if pyIsDigit district_name then none
  else some (mkWarning district_name
    (levelCell t row lc.1) (levelCell t row lc.2.1) (levelCell t row lc.2.2))

/-- Models `parse_landslide_table` from
`hf_space/src/landslide_extractor.py` (lines 146–251). -/
def parse_landslide_table (t : Table) : List DivisionWarningRecord :=
  if t.cols.length < 2 then []
  else
    match detectCols t with
    | (none, _, _, _) => []
    | (some dcLabel, l1, l2, l3) =>
      t.rows.filterMap (parse_landslide_row t dcLabel (l1, l2, l3))

/-- Models `list(set(xs) | set(ys))` on division lists: the union without
duplicates.  CPython materialises the set in implementation-defined hash
order; the embedding fixes a deterministic order (`List.dedup` of the
concatenation), and no theorem below depends on the chosen order. -/
def unionL (xs ys : List String) : List String :=
  (xs ++ ys).dedup

/-- The in-place merge of one duplicate record into an existing one
(`merge_district_warnings`, lines 320–345): union the three division
lists, then recompute counts, total and max level. -/
def mergeRecs (e w : DivisionWarningRecord) : DivisionWarningRecord :=
  let l1 := unionL e.level_1_divisions w.level_1_divisions
  let l2 := unionL e.level_2_divisions w.level_2_divisions
  let l3 := unionL e.level_3_divisions w.level_3_divisions
  { district := e.district
    level_1_divisions := l1
    level_2_divisions := l2
    level_3_divisions := l3
    level_1_count := l1.length
    level_2_count := l2.length
    level_3_count := l3.length
    total_warnings := l1.length + l2.length + l3.length
    max_level := derivedMaxLevel l1.length l2.length l3.length }

/-- One step of the `district_map` loop: merge into the existing entry
for the same district, else append a copy.  The map's keys (districts)
are unique by construction, so the `List.map` touches exactly the one
existing entry. -/
def mergeInto (m : List DivisionWarningRecord) (w : DivisionWarningRecord) : List DivisionWarningRecord :=
  if m.any (fun e => e.district == w.district) then
    m.map fun e => if e.district = w.district then mergeRecs e w else e
  else m ++ [w]

/-- Models `merge_district_warnings` from
`hf_space/src/landslide_extractor.py` (lines 309–349): fold the input
list into an insertion-ordered district map and return its values. -/
def merge_district_warnings (warnings_list : List DivisionWarningRecord) : List DivisionWarningRecord :=
  warnings_list.foldl mergeInto []

/-- One boundary-catalog feature; only the `district` property
participates in the join. -/
structure GeoFeature where
  district : String
deriving DecidableEq

/-- One output feature of the landslide `convert_to_geojson`: the catalog
feature's district plus the warning properties added by the join. -/
structure GeoFeatureOut where
  district : String
  max_level : Nat
  level_1_count : Nat
  level_2_count : Nat
  level_3_count : Nat
  total_warnings : Nat
  level_1_divisions : List String
  level_2_divisions : List String
  level_3_divisions : List String
deriving DecidableEq

/-- Models `landslide_lookup = {d["district"]: d for d in districts}`:
a dict comprehension, so for duplicate districts the last entry wins. -/
def landslideLookup (districts : List DivisionWarningRecord) (name : String) : Option DivisionWarningRecord :=
  districts.foldl (fun acc d => if d.district = name then some d else acc) none

/-- The per-feature update of the landslide `convert_to_geojson`: matched
warning fields when the district is in the lookup, the explicit zero
default otherwise. -/
def enrichFeature (districts : List DivisionWarningRecord) (f : GeoFeature) : GeoFeatureOut :=
  match landslideLookup districts f.district with
  | some w =>
    { district := f.district
      max_level := w.max_level
      level_1_count := w.level_1_count
      level_2_count := w.level_2_count
      level_3_count := w.level_3_count
      total_warnings := w.total_warnings
      level_1_divisions := w.level_1_divisions
      level_2_divisions := w.level_2_divisions
      level_3_divisions := w.level_3_divisions }
  | none =>
    { district := f.district
      max_level := 0
      level_1_count := 0
      level_2_count := 0
      level_3_count := 0
      total_warnings := 0
      level_1_divisions := []
      level_2_divisions := []
      level_3_divisions := [] }

/-- Models `convert_to_geojson` from
`hf_space/src/landslide_extractor.py` (lines 406–460): deep-copy the
boundary-catalog feature collection and update every feature's properties
(the attachment of the report's metadata/totals dicts, which does not
touch the features, is omitted). -/
def convert_to_geojson (districts : List DivisionWarningRecord) (catalog : List GeoFeature) : List GeoFeatureOut :=
  catalog.map (enrichFeature districts)

/-- The §3 record invariant: counts, total and max level are the pure
functions of the division lists that `parse_landslide_table` computes. -/
def WFRecord (w : DivisionWarningRecord) : Prop :=
  w.level_1_count = w.level_1_divisions.length ∧
  w.level_2_count = w.level_2_divisions.length ∧
  w.level_3_count = w.level_3_divisions.length ∧
  w.total_warnings = w.level_1_divisions.length + w.level_2_divisions.length +
    w.level_3_divisions.length ∧
  w.max_level = derivedMaxLevel w.level_1_divisions.length w.level_2_divisions.length
    w.level_3_divisions.length

instance (w : DivisionWarningRecord) : Decidable (WFRecord w) := by
  unfold WFRecord; infer_instance

/-- A record whose stored fields agree with its division lists and whose
division lists are duplicate-free. -/
def WFLists (w : DivisionWarningRecord) : Prop :=
  WFRecord w ∧ w.level_1_divisions.Nodup ∧ w.level_2_divisions.Nodup ∧
    w.level_3_divisions.Nodup

instance (w : DivisionWarningRecord) : Decidable (WFLists w) := by
  unfold WFLists; infer_instance

/-- Equality of warning records up to the (unspecified) order of the
division lists: same district, same members of each division list, and
the same counts, total and max level. -/
def recEquiv (a b : DivisionWarningRecord) : Prop :=
  a.district = b.district ∧
  (∀ x, x ∈ a.level_1_divisions ↔ x ∈ b.level_1_divisions) ∧
  (∀ x, x ∈ a.level_2_divisions ↔ x ∈ b.level_2_divisions) ∧
  (∀ x, x ∈ a.level_3_divisions ↔ x ∈ b.level_3_divisions) ∧
  a.level_1_count = b.level_1_count ∧
  a.level_2_count = b.level_2_count ∧
  a.level_3_count = b.level_3_count ∧
  a.total_warnings = b.total_warnings ∧
  a.max_level = b.max_level

/-- A record whose stored counts disagree with its (empty) division
lists; merging recomputes the counts while a single-record merge keeps
them verbatim. -/
def inconsistentRecord : DivisionWarningRecord :=
  { district := "Colombo", level_1_divisions := [], level_2_divisions := [],
    level_3_divisions := [], level_1_count := 99, level_2_count := 0,
    level_3_count := 0, total_warnings := 99, max_level := 1 }

end LandslideExtractor

namespace FloodExtractor

/-- A concrete line sequence for the unit-rejection behaviour: position 11
starts a station attempt (`"Kelani Ganga"`), position 13 holds the invalid
unit token `"zzz"`, and positions 12–19 spell a complete station cycle
(`"Kalu Ganga"`, station, `"m"`, five readings) that is parsed only if
scanning resumes at position 12. -/
def unitRejectLines : List String :=
  ["h0", "h1", "h2", "h3", "h4", "h5", "h6", "h7", "h8", "h9", "h10",
   "Kelani Ganga", "Kalu Ganga", "zzz", "m", "1", "2", "3", "4", "5"]

end FloodExtractor

example : PdfExtractor.clean_numeric_value (some "1,234") = 1234 := by decide
example : PdfExtractor.clean_numeric_value (some "-5") = -5 := by decide
example : PdfExtractor.clean_numeric_value (some "-") = 0 := by decide
example : FloodExtractor.parse_float "7.5" = some (.finite 75 1) := by decide
example : FloodExtractor.parse_float "NA" = none := by decide

example :
    LandslideExtractor.parse_divisions (some "Ella, Badulla and Hali-Ela Divisional Secretariat")
      = ["Ella", "Badulla", "Hali-Ela"] := by decide

example :
    PdfExtractor.parse_sitrep_table
      { cols := ["c0","c1","c2","c3","c4","c5","c6","c7","c8","c9","c10"]
        rows := [[some "h", some "h", some "h", some "h", some "h", some "h", some "h", some "h", some "h", some "h", some "h"],
                 [some "h", some "h", some "h", some "h", some "h", some "h", some "h", some "h", some "h", some "h", some "h"],
                 [some "3", some "Colombo", some "1,200", some "5,000", some "2", some "0", some "10", some "25", some "4", some "300", some "900"]] }
      = [{ district := "Colombo", lat := 69271, lon := 798612,
           families_affected := 1200, people_affected := 5000, deaths := 2,
           missing := 0, houses_fully_damaged := 10, houses_partially_damaged := 25,
           safety_centers := 4, families_displaced := 300, people_displaced := 900 }] := by decide

example : FloodExtractor.basinCapture "Kelani Ganga (RB 01)" = some "Kelani Ganga (RB 01)" := by decide
example : FloodExtractor.basinCapture "Kelani Ganga" = none := by decide

example :
    FloodExtractor.parse_water_level_table
      ((List.replicate 11 "h\n").foldl (· ++ ·) "" ++
        "Kelani Ganga (RB 01)\nKelani Ganga\nHanwella\nm\n7.5\n9.0\n10.5\n8.1\n8.3\nNormal\nFalling")
      = [{ river_basin := "Kelani Ganga (RB 01)", tributary := "Kelani Ganga",
           station := "Hanwella", unit := "m",
           alert_level := some (.finite 75 1), minor_flood_level := some (.finite 90 1),
           major_flood_level := some (.finite 105 1),
           water_level_reading_1 := some (.finite 81 1),
           water_level_reading_2 := some (.finite 83 1),
           remarks := some "Normal", water_level_trend := some "Falling",
           rainfall_6hr_mm := none }] := by decide

example :
    FloodExtractor.extract_metadata "" =
      { report_date := none, report_date_str := none, report_time := none, report_title := none } := by decide

example :
    (PdfExtractor.extract_metadata_from_text "Situation Report on 2025.13.45 at 9999 hrs").report_date_raw
      = some "2025.13.45 9999" := by decide

example :
    (LandslideExtractor.merge_district_warnings
      [{ district := "Colombo", level_1_divisions := [], level_2_divisions := [],
         level_3_divisions := [], level_1_count := 99, level_2_count := 0,
         level_3_count := 0, total_warnings := 99, max_level := 1 },
       { district := "Colombo", level_1_divisions := [], level_2_divisions := [],
         level_3_divisions := [], level_1_count := 99, level_2_count := 0,
         level_3_count := 0, total_warnings := 99, max_level := 1 }]) =
      [{ district := "Colombo", level_1_divisions := [], level_2_divisions := [],
         level_3_divisions := [], level_1_count := 0, level_2_count := 0,
         level_3_count := 0, total_warnings := 0, max_level := 0 }] := by decide

/-! ## Theorems -/

/-- C8: the Value Normalizer is thousands-separator aware and maps the
count sentinels to `0` (`clean_numeric_value("1,234") = 1234`,
`clean_numeric_value("-") = clean_numeric_value("") = 0`), while the
measurement sentinels map to null, not 0
(`parse_float("-") = parse_float("NA") = None`). -/
theorem value_normalizer_sentinels :
    PdfExtractor.clean_numeric_value (some "1,234") = 1234 ∧
    PdfExtractor.clean_numeric_value (some "-") = 0 ∧
    PdfExtractor.clean_numeric_value (some "") = 0 ∧
    FloodExtractor.parse_float "-" = none ∧
    FloodExtractor.parse_float "NA" = none := by
  refine ⟨?_, ?_, ?_, ?_, ?_⟩ <;> decide

/-- C3 counterexample: a table with a single column (fewer than 4) does
not make situation-report extraction fail — it extracts successfully with
an empty district list — so "no table or fewer than 4 columns" is not the
fatal condition; only a missing table is. -/
theorem sitrep_extract_narrow_table_ok :
    PdfExtractor.extract_sitrep_data "x"
        (some { cols := ["c0"], rows := [[some "a"], [some "b"], [some "c"]] })
      = Except.ok
          { metadata := { report_date := none, report_date_raw := some "Unknown" }
            districts := []
            totals :=
              { total_families_affected := 0, total_people_affected := 0,
                total_deaths := 0, total_missing := 0,
                total_houses_fully_damaged := 0, total_houses_partially_damaged := 0,
                total_safety_centers := 0, total_families_displaced := 0,
                total_people_displaced := 0, districts_affected := 0 } } ∧
    ({ cols := ["c0"], rows := [[some "a"], [some "b"], [some "c"]] } : Table).cols.length < 4 := by
  exact ⟨by rfl, by decide⟩

/-- C3 (amended): situation-report extraction fails if and only if the
decoding collaborator supplied no table; any supplied table — regardless of
its column count — is parsed, with malformed rows skipped, and extraction
returns a result. -/
theorem sitrep_extract_error_iff_no_table :
    ∀ (text : String) (t? : Option Table),
      PdfExtractor.extract_sitrep_data text t? =
          Except.error "Could not extract table from PDF"
        ↔ t? = none := by
  intro text t?
  cases t? <;> simp [PdfExtractor.extract_sitrep_data]

/-- C1 counterexample: on a text without the `DATE` pattern (here `""`),
the water-level metadata extractor populates no date field at all — its
record has no `report_date_raw` field and no `"Unknown"` fallback — so it
is not the case that every metadata extraction populates exactly one of
`report_date`/`report_date_raw`. -/
theorem flood_metadata_no_date_fallback :
    FloodExtractor.extract_metadata "" =
      { report_date := none, report_date_str := none,
        report_time := none, report_title := none } := by
  decide

/-- C1 (amended): the situation-report metadata extractor populates
exactly one of `report_date`/`report_date_raw` for every text and never
raises; the water-level metadata extractor never raises and never
populates both `report_date` and its fallback `report_date_str`, but when
its `DATE` pattern finds no match it populates neither (there is no
`"Unknown"` fallback). -/
theorem metadata_date_population :
    (∀ text : String,
      ((PdfExtractor.extract_metadata_from_text text).report_date.isSome = true ∧
        (PdfExtractor.extract_metadata_from_text text).report_date_raw = none) ∨
      ((PdfExtractor.extract_metadata_from_text text).report_date = none ∧
        (PdfExtractor.extract_metadata_from_text text).report_date_raw.isSome = true)) ∧
    (∀ text : String,
      (¬((FloodExtractor.extract_metadata text).report_date.isSome = true ∧
          (FloodExtractor.extract_metadata text).report_date_str.isSome = true)) ∧
      (reSearch FloodExtractor.floodDateAt text.toList = none →
        (FloodExtractor.extract_metadata text).report_date = none ∧
        (FloodExtractor.extract_metadata text).report_date_str = none)) := by
  constructor
  · intro text
    unfold PdfExtractor.extract_metadata_from_text
    cases hr : reSearch PdfExtractor.sitrepDateAt text.toList with
    | none => right; simp
    | some x =>
      obtain ⟨⟨y, m, d⟩, ⟨hh, mi⟩, rawDate, rawTime⟩ := x
      cases hv : validDateTime y m d hh mi with
      | true => left; simp [hv]
      | false => right; simp [hv]
  · intro text
    unfold FloodExtractor.extract_metadata
    cases hr : reSearch FloodExtractor.floodDateAt text.toList with
    | none => simp
    | some x =>
      obtain ⟨d, mon, y, raw⟩ := x
      cases hm : FloodExtractor.monthFromAbbrev mon with
      | none => simp [hm]
      | some m =>
        cases hv : validDate y m d with
        | true => simp [hm, hv]
        | false => simp [hm, hv]

/-- C2 counterexample: the situation-report `convert_to_geojson` emits one
feature per extracted district record only — for an empty report its
output has 0 features while the district coordinate catalog has 26 entries
— so its output feature count does not equal the boundary-catalog entry
count for every report. -/
theorem sitrep_geojson_count_cex :
    (PdfExtractor.convert_to_geojson
      { metadata := { report_date := none, report_date_raw := some "Unknown" }
        districts := []
        totals := PdfExtractor.calculate_totals [] }).features.length = 0 ∧
    PdfExtractor.DISTRICT_COORDS.length = 26 := by
  exact ⟨rfl, rfl⟩

/-- C2 (amended): the landslide geospatial join satisfies completeness:
for every report and catalog it emits exactly one combined record per
boundary-catalog feature — the enrichment of that feature, which carries
the matched report fields when the district is found in the report and the
explicit zero-filled default otherwise — so its output count equals the
catalog entry count (including for an empty report).  The
situation-report `convert_to_geojson` does not consume a catalog at all
(see the counterexample). -/
theorem landslide_geojson_completeness :
    ∀ (districts : List LandslideExtractor.DivisionWarningRecord)
      (catalog : List LandslideExtractor.GeoFeature),
      (LandslideExtractor.convert_to_geojson districts catalog).length = catalog.length ∧
      ∀ f ∈ catalog,
        LandslideExtractor.enrichFeature districts f ∈
          LandslideExtractor.convert_to_geojson districts catalog ∧
        (LandslideExtractor.landslideLookup districts f.district = none →
          LandslideExtractor.enrichFeature districts f =
            { district := f.district, max_level := 0, level_1_count := 0,
              level_2_count := 0, level_3_count := 0, total_warnings := 0,
              level_1_divisions := [], level_2_divisions := [],
              level_3_divisions := [] }) ∧
        (∀ w, LandslideExtractor.landslideLookup districts f.district = some w →
          LandslideExtractor.enrichFeature districts f =
            { district := f.district, max_level := w.max_level,
              level_1_count := w.level_1_count, level_2_count := w.level_2_count,
              level_3_count := w.level_3_count, total_warnings := w.total_warnings,
              level_1_divisions := w.level_1_divisions,
              level_2_divisions := w.level_2_divisions,
              level_3_divisions := w.level_3_divisions }) := by
  intro districts catalog
  refine ⟨List.length_map _ _, fun f hf => ⟨List.mem_map_of_mem _ hf, ?_, ?_⟩⟩
  · intro hnone
    unfold LandslideExtractor.enrichFeature
    rw [hnone]
  · intro w hsome
    unfold LandslideExtractor.enrichFeature
    rw [hsome]

/-- C4 counterexample: a table cell holding the negative numeral `"-5"`
passes `clean_numeric_value` unchanged (`int("-5") = -5`), so the parser
emits a DistrictRecord with a negative field: non-negativity does not hold
for every input table-cell matrix. -/
theorem sitrep_negative_numeral_cex :
    PdfExtractor.parse_sitrep_table
        { cols := ["c0", "c1", "c2", "c3", "c4", "c5", "c6", "c7", "c8", "c9", "c10"]
          rows := [[], [],
            [some "3", some "Colombo", some "-5", some "0", some "0", some "0",
             some "0", some "0", some "0", some "0", some "0"]] }
      = [{ district := "Colombo", lat := 69271, lon := 798612,
           families_affected := -5, people_affected := 0, deaths := 0,
           missing := 0, houses_fully_damaged := 0, houses_partially_damaged := 0,
           safety_centers := 0, families_displaced := 0, people_displaced := 0 }] ∧
    PdfExtractor.clean_numeric_value (some "-5") = -5 := by
  exact ⟨by decide, by decide⟩

/-- The numeric-field lookup of `parse_sitrep_table` is non-negative
whenever `clean_numeric_value` is non-negative on every cell of the row
(a missing column or label contributes the default `0`). -/
theorem sitrep_num_nonneg (t : Table) (row : List (Option String)) (k : Nat)
    (h : ∀ c ∈ row, 0 ≤ PdfExtractor.clean_numeric_value c) :
    0 ≤ PdfExtractor.sitrep_num t row k := by
  unfold PdfExtractor.sitrep_num
  cases PdfExtractor.colAt t.cols k with
  | none => simp
  | some label =>
    simp only
    cases hs : seriesGet t.cols row label with
    | none => simp
    | some cell =>
      unfold seriesGet at hs
      cases hidx : t.cols.indexOf? label with
      | none => rw [hidx] at hs; exact absurd hs (by simp)
      | some k2 =>
        rw [hidx] at hs
        exact h cell (List.get?_mem hs)

/-- Every record of `parse_sitrep_table_aux` comes from one of the
enumerated rows, built by `mkDistrictRecord`. -/
theorem parse_sitrep_aux_shape (t : Table) :
    ∀ (l : List (Nat × List (Option String))) (r : PdfExtractor.DistrictRecord),
      r ∈ PdfExtractor.parse_sitrep_table_aux t l →
      ∃ p ∈ l, r = PdfExtractor.mkDistrictRecord t (PdfExtractor.sitrepRowName t p.2) p.2 := by
  intro l
  induction l with
  | nil => intro r hr; exact absurd hr (by simp [PdfExtractor.parse_sitrep_table_aux])
  | cons p rest ih =>
    intro r hr
    obtain ⟨idx, row⟩ := p
    unfold PdfExtractor.parse_sitrep_table_aux at hr
    by_cases h1 : idx < 2
    · rw [if_pos h1] at hr
      obtain ⟨q, hq, he⟩ := ih r hr
      exact ⟨q, List.mem_cons_of_mem _ hq, he⟩
    · rw [if_neg h1] at hr
      by_cases h2 : PdfExtractor.sitrepRowKeep t row
      · rw [if_pos h2] at hr
        rcases List.mem_cons.mp hr with he | hr2
        · exact ⟨(idx, row), List.mem_cons_self _ _, he⟩
        · obtain ⟨q, hq, he⟩ := ih r hr2
          exact ⟨q, List.mem_cons_of_mem _ hq, he⟩
      · rw [if_neg h2] at hr
        obtain ⟨q, hq, he⟩ := ih r hr
        exact ⟨q, List.mem_cons_of_mem _ hq, he⟩

/-- C4 (amended): missing and `"-"` cells resolve to the integer `0`,
never to null (the record fields are integers by construction), and every
record produced by the situation-report parser has all ten numeric fields
non-negative provided `clean_numeric_value` is non-negative on every cell
of the table — which holds unless a cell contains a negative numeral, in
which case the negative value is stored as-is (see the counterexample). -/
theorem sitrep_fields_nonneg_amended :
    (PdfExtractor.clean_numeric_value none = 0 ∧
      PdfExtractor.clean_numeric_value (some "-") = 0) ∧
    ∀ (t : Table) (r : PdfExtractor.DistrictRecord),
      r ∈ PdfExtractor.parse_sitrep_table t →
      (∀ row ∈ t.rows, ∀ c ∈ row, 0 ≤ PdfExtractor.clean_numeric_value c) →
      0 ≤ r.families_affected ∧ 0 ≤ r.people_affected ∧ 0 ≤ r.deaths ∧
      0 ≤ r.missing ∧ 0 ≤ r.houses_fully_damaged ∧
      0 ≤ r.houses_partially_damaged ∧ 0 ≤ r.safety_centers ∧
      0 ≤ r.families_displaced ∧ 0 ≤ r.people_displaced := by
  refine ⟨⟨rfl, rfl⟩, ?_⟩
  intro t r hr h
  obtain ⟨⟨idx, row⟩, hp, he⟩ := parse_sitrep_aux_shape t t.rows.enum r hr
  have hrow : row ∈ t.rows := List.getElem?_mem (List.mk_mem_enum_iff_getElem?.mp hp)
  have hcell := h row hrow
  subst he
  exact ⟨sitrep_num_nonneg t row 2 hcell, sitrep_num_nonneg t row 3 hcell,
    sitrep_num_nonneg t row 4 hcell, sitrep_num_nonneg t row 5 hcell,
    sitrep_num_nonneg t row 6 hcell, sitrep_num_nonneg t row 7 hcell,
    sitrep_num_nonneg t row 8 hcell, sitrep_num_nonneg t row 9 hcell,
    sitrep_num_nonneg t row 10 hcell⟩

/-- C4 witness: the non-negativity theorem applied to a concrete
negative-free table. -/
theorem sitrep_fields_nonneg_amended_witness :
    0 ≤ ({ district := "Colombo", lat := 69271, lon := 798612,
           families_affected := 1200, people_affected := 5000, deaths := 2,
           missing := 0, houses_fully_damaged := 10, houses_partially_damaged := 25,
           safety_centers := 4, families_displaced := 300, people_displaced := 900 } :
          PdfExtractor.DistrictRecord).families_affected :=
  (sitrep_fields_nonneg_amended.2
    { cols := ["c0", "c1", "c2", "c3", "c4", "c5", "c6", "c7", "c8", "c9", "c10"]
      rows := [[], [],
        [some "3", some "Colombo", some "1,200", some "5,000", some "2", some "0",
         some "10", some "25", some "4", some "300", some "900"]] }
    _ (by decide) (by decide)).1

/-- C7 counterexample: a row whose district cell is the purely numeric
token `"123"` is not skipped by the situation-report parser — it yields a
record (with the default centroid coordinates) — so the row filter has no
purely-numeric-token condition. -/
theorem sitrep_numeric_district_kept_cex :
    PdfExtractor.parse_sitrep_table
        { cols := ["c0", "c1", "c2", "c3", "c4", "c5", "c6", "c7", "c8", "c9", "c10"]
          rows := [[], [],
            [some "1", some "123", some "0", some "0", some "0", some "0",
             some "0", some "0", some "0", some "0", some "0"]] }
      = [{ district := "123", lat := 78731, lon := 807718,
           families_affected := 0, people_affected := 0, deaths := 0,
           missing := 0, houses_fully_damaged := 0, houses_partially_damaged := 0,
           safety_centers := 0, families_displaced := 0, people_displaced := 0 }] ∧
    pyIsDigit "123" = true := by
  exact ⟨by decide, by decide⟩

/-- C7 (amended): the situation-report parser emits exactly one record per
row that (a) is not one of the first two (header) rows and (b) has a
normalized district name that is non-empty and not in the sentinel list
`none/total/districts/""` (case-insensitively); there is no skip for
purely numeric district tokens (see the counterexample). -/
theorem sitrep_row_filter_characterization :
    ∀ t : Table,
      PdfExtractor.parse_sitrep_table t =
        ((t.rows.enum.filter fun p =>
            decide (2 ≤ p.1) && PdfExtractor.sitrepRowKeep t p.2).map
          fun p => PdfExtractor.mkDistrictRecord t (PdfExtractor.sitrepRowName t p.2) p.2) := by
  intro t
  show PdfExtractor.parse_sitrep_table_aux t t.rows.enum = _
  induction t.rows.enum with
  | nil => rfl
  | cons p rest ih =>
    obtain ⟨idx, row⟩ := p
    unfold PdfExtractor.parse_sitrep_table_aux
    by_cases h1 : idx < 2
    · have hd : (decide (2 ≤ idx) && PdfExtractor.sitrepRowKeep t row) = false := by
        have : ¬(2 ≤ idx) := by omega
        simp [this]
      rw [if_pos h1]
      simp [List.filter_cons, hd, ih]
    · by_cases h2 : PdfExtractor.sitrepRowKeep t row
      · have hd : (decide (2 ≤ idx) && PdfExtractor.sitrepRowKeep t row) = true := by
          have : 2 ≤ idx := by omega
          simp [this, h2]
        rw [if_neg h1, if_pos h2]
        simp [List.filter_cons, hd, ih]
      · have hd : (decide (2 ≤ idx) && PdfExtractor.sitrepRowKeep t row) = false := by
          simp [h2]
        rw [if_neg h1, if_neg h2]
        simp [List.filter_cons, hd, ih]

namespace LandslideExtractor

/-- Two duplicate-free lists with the same members have the same length. -/
theorem nodup_length_eq_of_mem_iff {l1 l2 : List String} (h1 : l1.Nodup) (h2 : l2.Nodup)
    (h : ∀ a, a ∈ l1 ↔ a ∈ l2) : l1.length = l2.length := by
  have ht : l1.toFinset = l2.toFinset := by
    ext a
    simp only [List.mem_toFinset]
    exact h a
  calc l1.length = l1.toFinset.card := (List.toFinset_card_of_nodup h1).symm
    _ = l2.toFinset.card := by rw [ht]
    _ = l2.length := List.toFinset_card_of_nodup h2

/-- Membership in the modelled set union. -/
theorem mem_unionL {a : String} {xs ys : List String} :
    a ∈ unionL xs ys ↔ a ∈ xs ∨ a ∈ ys := by
  simp [unionL]

/-- The modelled set union is duplicate-free. -/
theorem nodup_unionL (xs ys : List String) : (unionL xs ys).Nodup :=
  List.nodup_dedup _

/-- The two orders of the modelled set union have the same length. -/
theorem length_unionL_comm (xs ys : List String) :
    (unionL xs ys).length = (unionL ys xs).length :=
  nodup_length_eq_of_mem_iff (nodup_unionL xs ys) (nodup_unionL ys xs)
    (fun a => by simp [mem_unionL, or_comm])

/-- Union of a duplicate-free list with itself preserves the length. -/
theorem length_unionL_self {xs : List String} (h : xs.Nodup) :
    (unionL xs xs).length = xs.length :=
  nodup_length_eq_of_mem_iff (nodup_unionL xs xs) h (fun a => by simp [mem_unionL])

/-- `recEquiv` is reflexive. -/
theorem recEquiv_refl (a : DivisionWarningRecord) : recEquiv a a :=
  ⟨rfl, fun _ => Iff.rfl, fun _ => Iff.rfl, fun _ => Iff.rfl, rfl, rfl, rfl, rfl, rfl⟩

/-- Merging a record into a one-entry map with the same district replaces
the entry by the merged record. -/
theorem mergeInto_pair_same {A B : DivisionWarningRecord} (hd : A.district = B.district) :
    mergeInto [A] B = [mergeRecs A B] := by
  unfold mergeInto
  rw [if_pos (by simp [hd])]
  simp [hd]

/-- Merging a record into a one-entry map with a different district
appends it. -/
theorem mergeInto_pair_diff {A B : DivisionWarningRecord} (hd : ¬A.district = B.district) :
    mergeInto [A] B = [A, B] := by
  unfold mergeInto
  rw [if_neg (by simp [hd])]
  rfl

/-- Merging two same-district records in either order gives records equal
up to division-list order. -/
theorem recEquiv_mergeRecs_comm {A B : DivisionWarningRecord} (hd : A.district = B.district) :
    recEquiv (mergeRecs A B) (mergeRecs B A) := by
  have c1 := length_unionL_comm A.level_1_divisions B.level_1_divisions
  have c2 := length_unionL_comm A.level_2_divisions B.level_2_divisions
  have c3 := length_unionL_comm A.level_3_divisions B.level_3_divisions
  refine ⟨hd, ?_, ?_, ?_, c1, c2, c3, ?_, ?_⟩
  · intro x
    rw [show (mergeRecs A B).level_1_divisions =
          unionL A.level_1_divisions B.level_1_divisions from rfl,
        show (mergeRecs B A).level_1_divisions =
          unionL B.level_1_divisions A.level_1_divisions from rfl,
        mem_unionL, mem_unionL]
    exact or_comm
  · intro x
    rw [show (mergeRecs A B).level_2_divisions =
          unionL A.level_2_divisions B.level_2_divisions from rfl,
        show (mergeRecs B A).level_2_divisions =
          unionL B.level_2_divisions A.level_2_divisions from rfl,
        mem_unionL, mem_unionL]
    exact or_comm
  · intro x
    rw [show (mergeRecs A B).level_3_divisions =
          unionL A.level_3_divisions B.level_3_divisions from rfl,
        show (mergeRecs B A).level_3_divisions =
          unionL B.level_3_divisions A.level_3_divisions from rfl,
        mem_unionL, mem_unionL]
    exact or_comm
  · show (unionL A.level_1_divisions B.level_1_divisions).length +
        (unionL A.level_2_divisions B.level_2_divisions).length +
        (unionL A.level_3_divisions B.level_3_divisions).length =
      (unionL B.level_1_divisions A.level_1_divisions).length +
        (unionL B.level_2_divisions A.level_2_divisions).length +
        (unionL B.level_3_divisions A.level_3_divisions).length
    omega
  · show derivedMaxLevel (unionL A.level_1_divisions B.level_1_divisions).length
        (unionL A.level_2_divisions B.level_2_divisions).length
        (unionL A.level_3_divisions B.level_3_divisions).length =
      derivedMaxLevel (unionL B.level_1_divisions A.level_1_divisions).length
        (unionL B.level_2_divisions A.level_2_divisions).length
        (unionL B.level_3_divisions A.level_3_divisions).length
    rw [c1, c2, c3]

end LandslideExtractor

/-- C5 counterexample: merging `[A, A]` does not equal merging `[A]` for
the record `A = inconsistentRecord`: a single-record merge keeps the
stored counts (`level_1_count = 99`) verbatim, while the duplicate merge
recomputes them from the (empty) division lists. -/
theorem merge_not_literally_idempotent_cex :
    (LandslideExtractor.merge_district_warnings
        [LandslideExtractor.inconsistentRecord, LandslideExtractor.inconsistentRecord] ≠
      LandslideExtractor.merge_district_warnings [LandslideExtractor.inconsistentRecord]) ∧
    LandslideExtractor.merge_district_warnings [LandslideExtractor.inconsistentRecord] =
      [LandslideExtractor.inconsistentRecord] := by
  exact ⟨by decide, by decide⟩

/-- C5 (amended): for records whose stored counts/total/max agree with
their duplicate-free division lists, merging `[A, A]` yields the single
record `mergeRecs A A`, which equals `A` up to division-list order; and
for all records `A, B`, merging `[A, B]` and `[B, A]` yield the same
number of records, each record of one matched by a record of the other
equal up to division-list order.  Literal list equality fails (see the
counterexample): an unmerged record keeps its stored fields verbatim,
and the output and union orders depend on input order. -/
theorem merge_idem_comm_amended :
    (∀ A : LandslideExtractor.DivisionWarningRecord, LandslideExtractor.WFLists A →
      LandslideExtractor.merge_district_warnings [A] = [A] ∧
      LandslideExtractor.merge_district_warnings [A, A] = [LandslideExtractor.mergeRecs A A] ∧
      LandslideExtractor.recEquiv (LandslideExtractor.mergeRecs A A) A) ∧
    (∀ A B : LandslideExtractor.DivisionWarningRecord,
      (LandslideExtractor.merge_district_warnings [A, B]).length =
        (LandslideExtractor.merge_district_warnings [B, A]).length ∧
      ∀ r ∈ LandslideExtractor.merge_district_warnings [A, B],
        ∃ s ∈ LandslideExtractor.merge_district_warnings [B, A],
          LandslideExtractor.recEquiv r s) := by
  have hpair : ∀ A B : LandslideExtractor.DivisionWarningRecord,
      LandslideExtractor.merge_district_warnings [A, B] = LandslideExtractor.mergeInto [A] B :=
    fun A B => rfl
  constructor
  · intro A hA
    obtain ⟨⟨hc1, hc2, hc3, ht, hm⟩, hn1, hn2, hn3⟩ := hA
    have e2 : LandslideExtractor.merge_district_warnings [A, A] =
        [LandslideExtractor.mergeRecs A A] := by
      rw [hpair, LandslideExtractor.mergeInto_pair_same rfl]
    refine ⟨rfl, e2, rfl, ?_, ?_, ?_, ?_, ?_, ?_, ?_, ?_⟩
    · intro x
      rw [show (LandslideExtractor.mergeRecs A A).level_1_divisions =
            LandslideExtractor.unionL A.level_1_divisions A.level_1_divisions from rfl,
          LandslideExtractor.mem_unionL]
      exact or_self_iff
    · intro x
      rw [show (LandslideExtractor.mergeRecs A A).level_2_divisions =
            LandslideExtractor.unionL A.level_2_divisions A.level_2_divisions from rfl,
          LandslideExtractor.mem_unionL]
      exact or_self_iff
    · intro x
      rw [show (LandslideExtractor.mergeRecs A A).level_3_divisions =
            LandslideExtractor.unionL A.level_3_divisions A.level_3_divisions from rfl,
          LandslideExtractor.mem_unionL]
      exact or_self_iff
    · show (LandslideExtractor.unionL A.level_1_divisions A.level_1_divisions).length =
        A.level_1_count
      rw [LandslideExtractor.length_unionL_self hn1]
      exact hc1.symm
    · show (LandslideExtractor.unionL A.level_2_divisions A.level_2_divisions).length =
        A.level_2_count
      rw [LandslideExtractor.length_unionL_self hn2]
      exact hc2.symm
    · show (LandslideExtractor.unionL A.level_3_divisions A.level_3_divisions).length =
        A.level_3_count
      rw [LandslideExtractor.length_unionL_self hn3]
      exact hc3.symm
    · show (LandslideExtractor.unionL A.level_1_divisions A.level_1_divisions).length +
          (LandslideExtractor.unionL A.level_2_divisions A.level_2_divisions).length +
          (LandslideExtractor.unionL A.level_3_divisions A.level_3_divisions).length =
        A.total_warnings
      rw [LandslideExtractor.length_unionL_self hn1, LandslideExtractor.length_unionL_self hn2,
        LandslideExtractor.length_unionL_self hn3]
      exact ht.symm
    · show LandslideExtractor.derivedMaxLevel
          (LandslideExtractor.unionL A.level_1_divisions A.level_1_divisions).length
          (LandslideExtractor.unionL A.level_2_divisions A.level_2_divisions).length
          (LandslideExtractor.unionL A.level_3_divisions A.level_3_divisions).length =
        A.max_level
      rw [LandslideExtractor.length_unionL_self hn1, LandslideExtractor.length_unionL_self hn2,
        LandslideExtractor.length_unionL_self hn3]
      exact hm.symm
  · intro A B
    by_cases hd : A.district = B.district
    · have e1 : LandslideExtractor.merge_district_warnings [A, B] =
          [LandslideExtractor.mergeRecs A B] := by
        rw [hpair, LandslideExtractor.mergeInto_pair_same hd]
      have e2 : LandslideExtractor.merge_district_warnings [B, A] =
          [LandslideExtractor.mergeRecs B A] := by
        rw [hpair, LandslideExtractor.mergeInto_pair_same hd.symm]
      rw [e1, e2]
      refine ⟨rfl, ?_⟩
      intro r hr
      rw [List.mem_singleton] at hr
      subst hr
      exact ⟨LandslideExtractor.mergeRecs B A, List.mem_singleton_self _,
        LandslideExtractor.recEquiv_mergeRecs_comm hd⟩
    · have e1 : LandslideExtractor.merge_district_warnings [A, B] = [A, B] := by
        rw [hpair, LandslideExtractor.mergeInto_pair_diff hd]
      have e2 : LandslideExtractor.merge_district_warnings [B, A] = [B, A] := by
        rw [hpair, LandslideExtractor.mergeInto_pair_diff (fun h => hd h.symm)]
      rw [e1, e2]
      refine ⟨rfl, ?_⟩
      intro r hr
      rcases List.mem_cons.mp hr with h | h
      · subst h
        exact ⟨r, by simp, LandslideExtractor.recEquiv_refl r⟩
      · rw [List.mem_singleton] at h
        subst h
        exact ⟨r, by simp, LandslideExtractor.recEquiv_refl r⟩

/-- C5 witness: the amended merge theorem applied to concrete records. -/
theorem merge_idem_comm_amended_witness :
    LandslideExtractor.recEquiv
      (LandslideExtractor.mergeRecs (LandslideExtractor.mkWarning "Colombo" ["Ella"] [] [])
        (LandslideExtractor.mkWarning "Colombo" ["Ella"] [] []))
      (LandslideExtractor.mkWarning "Colombo" ["Ella"] [] []) ∧
    (LandslideExtractor.merge_district_warnings
        [LandslideExtractor.mkWarning "Colombo" ["Ella"] [] [],
         LandslideExtractor.mkWarning "Kandy" [] ["Peradeniya"] []]).length =
      (LandslideExtractor.merge_district_warnings
        [LandslideExtractor.mkWarning "Kandy" [] ["Peradeniya"] [],
         LandslideExtractor.mkWarning "Colombo" ["Ella"] [] []]).length :=
  ⟨(merge_idem_comm_amended.1 _ (by decide)).2.2,
   (merge_idem_comm_amended.2 _ _).1⟩

namespace LandslideExtractor

/-- Records built by `mkWarning` satisfy the invariant by construction. -/
theorem WFRecord_mkWarning (d : String) (l1 l2 l3 : List String) :
    WFRecord (mkWarning d l1 l2 l3) :=
  ⟨rfl, rfl, rfl, rfl, rfl⟩

/-- Records rebuilt by `mergeRecs` satisfy the invariant by construction. -/
theorem WFRecord_mergeRecs (e w : DivisionWarningRecord) :
    WFRecord (mergeRecs e w) :=
  ⟨rfl, rfl, rfl, rfl, rfl⟩

/-- Any record emitted by the per-row parser is a `mkWarning`. -/
theorem parse_landslide_row_WF {t : Table} {dcLabel : String}
    {lc : Option String × Option String × Option String}
    {row : List (Option String)} {r : DivisionWarningRecord}
    (h : parse_landslide_row t dcLabel lc row = some r) : WFRecord r := by
  unfold parse_landslide_row at h
  dsimp only at h
  split at h
  · exact absurd h (by simp)
  · split at h
    · exact absurd h (by simp)
    · rw [Option.some_inj] at h
      subst h
      exact WFRecord_mkWarning _ _ _ _

/-- One `mergeInto` step preserves the invariant of every map entry. -/
theorem mergeInto_WF {m : List DivisionWarningRecord} {w : DivisionWarningRecord}
    (ha : ∀ x ∈ m, WFRecord x) (hw : WFRecord w) :
    ∀ r ∈ mergeInto m w, WFRecord r := by
  intro r hr
  unfold mergeInto at hr
  split at hr
  · rcases List.mem_map.mp hr with ⟨e, he, hee⟩
    by_cases hd : e.district = w.district
    · rw [if_pos hd] at hee
      exact hee ▸ WFRecord_mergeRecs e w
    · rw [if_neg hd] at hee
      exact hee ▸ ha e he
  · rcases List.mem_append.mp hr with h | h
    · exact ha r h
    · rw [List.mem_singleton] at h
      exact h ▸ hw

/-- The merge fold preserves the invariant. -/
theorem foldl_mergeInto_WF :
    ∀ (ws acc : List DivisionWarningRecord),
      (∀ x ∈ acc, WFRecord x) → (∀ x ∈ ws, WFRecord x) →
      ∀ r ∈ ws.foldl mergeInto acc, WFRecord r := by
  intro ws
  induction ws with
  | nil =>
    intro acc ha _ r hr
    exact ha r hr
  | cons w rest ih =>
    intro acc ha hw r hr
    rw [List.foldl_cons] at hr
    exact ih (mergeInto acc w)
      (mergeInto_WF ha (hw w (List.mem_cons_self _ _)))
      (fun x hx => hw x (List.mem_cons_of_mem _ hx)) r hr

end LandslideExtractor

/-- C9: every DivisionWarningRecord produced by the landslide table parser
satisfies the invariant (each level count equals the corresponding
division-list length, the total equals their sum, and max_level is 3 when
level 3 is non-empty regardless of levels 1/2, else 2, else 1, else 0);
and merging any list of invariant-satisfying records produces only
invariant-satisfying records (merged entries are recomputed, unmerged
entries are copied). -/
theorem warning_records_invariants :
    (∀ (t : Table) (r : LandslideExtractor.DivisionWarningRecord),
      r ∈ LandslideExtractor.parse_landslide_table t → LandslideExtractor.WFRecord r) ∧
    (∀ (ws : List LandslideExtractor.DivisionWarningRecord)
       (r : LandslideExtractor.DivisionWarningRecord),
      (∀ w ∈ ws, LandslideExtractor.WFRecord w) →
      r ∈ LandslideExtractor.merge_district_warnings ws → LandslideExtractor.WFRecord r) := by
  constructor
  · intro t r hr
    unfold LandslideExtractor.parse_landslide_table at hr
    split at hr
    · exact absurd hr (by simp)
    · split at hr
      · exact absurd hr (by simp)
      · rcases List.mem_filterMap.mp hr with ⟨row, _, hrow⟩
        exact LandslideExtractor.parse_landslide_row_WF hrow
  · intro ws r hws hr
    exact LandslideExtractor.foldl_mergeInto_WF ws [] (by simp) hws r hr

/-- C9 witness: the invariants theorem applied to a concrete table and a
concrete merge. -/
theorem warning_records_invariants_witness :
    LandslideExtractor.WFRecord (LandslideExtractor.mkWarning "Colombo" ["Ella"] [] []) ∧
    LandslideExtractor.WFRecord
      (LandslideExtractor.mergeRecs (LandslideExtractor.mkWarning "Colombo" ["Ella"] [] [])
        (LandslideExtractor.mkWarning "Colombo" ["Ella"] [] [])) :=
  ⟨warning_records_invariants.1
      { cols := ["District", "Level 1", "Level 2", "Level 3"]
        rows := [[some "Colombo", some "Ella", none, none]] }
      _ (by decide),
   warning_records_invariants.2
      [LandslideExtractor.mkWarning "Colombo" ["Ella"] [] [],
       LandslideExtractor.mkWarning "Colombo" ["Ella"] [] []]
      _ (by decide) (by decide)⟩

/-- No tributary-vocabulary token is a footer line or a basin header. -/
theorem tributary_not_footer_basin :
    ∀ s ∈ FloodExtractor.tributary_names,
      FloodExtractor.isFooterLine s = false ∧ FloodExtractor.basinCapture s = none := by
  decide

/-- C6 counterexample: in the concrete line sequence `unitRejectLines`,
the station attempt at position 11 fails its unit check at position 13
(token `"zzz"`), and the scan that actually continues (from position 13,
the unit position) finds no station, while a scan resumed from position 12
— the tributary line's successor, where the claim says scanning resumes —
would emit one StationReading.  So the parser does not resume from the
tributary line's successor. -/
theorem unit_reject_resume_cex :
    FloodExtractor.parseLoop FloodExtractor.unitRejectLines
        (FloodExtractor.unitRejectLines.length + 1) 11 "Kelani Ganga (RB 01)" [] = some [] ∧
    FloodExtractor.parseLoop FloodExtractor.unitRejectLines
        (FloodExtractor.unitRejectLines.length + 1) 12 "Kelani Ganga (RB 01)" [] =
      some [{ river_basin := "Kelani Ganga (RB 01)", tributary := "Kalu Ganga",
              station := "zzz", unit := "m",
              alert_level := some (.finite 1 0), minor_flood_level := some (.finite 2 0),
              major_flood_level := some (.finite 3 0),
              water_level_reading_1 := some (.finite 4 0),
              water_level_reading_2 := some (.finite 5 0),
              remarks := none, water_level_trend := none, rainfall_6hr_mm := none }] ∧
    FloodExtractor.unitRejectLines.get? 11 = some "Kelani Ganga" ∧
    FloodExtractor.tributary_names.contains "Kelani Ganga" = true ∧
    FloodExtractor.unitRejectLines.get? 13 = some "zzz" ∧
    (["m", "ft"] : List String).contains "zzz" = false := by
  refine ⟨?_, ?_, ?_, ?_, ?_, ?_⟩ <;> decide

/-- C6 (amended): when the line at the unit position is not literally
`"m"` or `"ft"`, the parser abandons the station attempt without emitting
a StationReading and resumes scanning from the unit position itself —
that is, from two lines after the tributary line (the station line's
successor), not from the tributary line's successor. -/
theorem unit_reject_resumes_two_after :
    ∀ (lines : List String) (fuel i : Nat) (basin : String)
      (acc : List FloodExtractor.StationReading) (line unitTok : String),
      lines.get? i = some line →
      line ∈ FloodExtractor.tributary_names →
      lines.get? (i + 2) = some unitTok →
      ¬(unitTok = "m" ∨ unitTok = "ft") →
      FloodExtractor.parseLoop lines (fuel + 1) i basin acc =
        FloodExtractor.parseLoop lines fuel (i + 2) basin acc := by
  intro lines fuel i basin acc line unitTok hline htrib hunit hu
  have hfb := tributary_not_footer_basin line htrib
  have hcontains : FloodExtractor.tributary_names.contains line = true :=
    List.elem_eq_true_of_mem htrib
  have hst : ∃ st, lines.get? (i + 1) = some st := by
    have h2 : i + 2 < lines.length := (List.get?_eq_some.mp hunit).1
    cases hq : lines.get? (i + 1) with
    | some st => exact ⟨st, rfl⟩
    | none =>
      have := List.get?_eq_none.mp hq
      omega
  obtain ⟨st, hstEq⟩ := hst
  rw [FloodExtractor.parseLoop]
  rw [hline]
  simp only [hfb.1, hfb.2, hcontains, hstEq, hunit, Bool.false_eq_true, if_false]
  rw [if_neg hu]
  simp

/-- C6 witness: the resume theorem applied at a concrete failed station
attempt. -/
theorem unit_reject_resumes_two_after_witness :
    FloodExtractor.parseLoop ["Kelani Ganga", "X", "zzz"] 6 0 "b" [] =
      FloodExtractor.parseLoop ["Kelani Ganga", "X", "zzz"] 5 2 "b" [] :=
  unit_reject_resumes_two_after ["Kelani Ganga", "X", "zzz"] 5 0 "b" []
    "Kelani Ganga" "zzz" rfl (by decide) rfl (by decide)

/-- The first optional-field step never moves the cursor backwards. -/
theorem optionalField1_le (lines : List String) (p : Nat) :
    p ≤ (FloodExtractor.optionalField1 lines p).2.2 := by
  unfold FloodExtractor.optionalField1
  cases lines.get? p with
  | none => exact Nat.le_refl p
  | some v =>
    dsimp only
    split_ifs with h1 h2
    · exact Nat.le_succ p
    · cases hpf : FloodExtractor.parse_float v with
      | some r =>
        show p ≤ p + 1
        omega
      | none => exact Nat.le_refl p
    · exact Nat.le_succ p

/-- The second optional-field step never moves the cursor backwards. -/
theorem optionalField2_le (lines : List String) (j : Nat) (rain1 : Option PyFloat) :
    j ≤ (FloodExtractor.optionalField2 lines j rain1).2.2 := by
  unfold FloodExtractor.optionalField2
  cases lines.get? j with
  | none => exact Nat.le_refl j
  | some w =>
    dsimp only
    split_ifs with h1 h2
    · exact Nat.le_succ j
    · cases rain1 with
      | none =>
        cases hpf : FloodExtractor.parse_float w with
        | some r =>
          show j ≤ j + 1
          omega
        | none => exact Nat.le_refl j
      | some r => exact Nat.le_refl j
    · exact Nat.le_succ j

/-- C10: the scanning loop of `parse_water_level_table` halts within
`lines.length - i` iterations from any cursor position: the cursor
strictly increases in every iteration (`+1` past non-data lines, `+2` on a
failed unit check, at least `+8` past a completed station cycle), so with
any fuel above that bound the loop never exhausts it and
`parse_water_level_table` is a total function returning a finite list. -/
theorem parse_water_level_terminates :
    ∀ (fuel : Nat) (lines : List String) (i : Nat) (basin : String)
      (acc : List FloodExtractor.StationReading),
      lines.length - i < fuel →
      (FloodExtractor.parseLoop lines fuel i basin acc).isSome = true := by
  intro fuel
  induction fuel with
  | zero =>
    intro lines i basin acc h
    omega
  | succ fuel ih =>
    intro lines i basin acc h
    rw [FloodExtractor.parseLoop]
    cases hline : lines.get? i with
    | none => simp
    | some line =>
      have hi : i < lines.length := (List.get?_eq_some.mp hline).1
      have ho1 := optionalField1_le lines (i + 8)
      have ho2 := optionalField2_le lines
        (FloodExtractor.optionalField1 lines (i + 8)).2.2
        (FloodExtractor.optionalField1 lines (i + 8)).2.1
      repeat' split
      all_goals first
        | rfl
        | (apply ih; omega)

/-- C10 witness: the termination theorem applied at a concrete line list
and cursor. -/
theorem parse_water_level_terminates_witness :
    (FloodExtractor.parseLoop ["x"] 2 0 "b" []).isSome = true :=
  parse_water_level_terminates 2 ["x"] 0 "b" [] (by decide)
